import Mathlib

/-!
Verification of the evdev fallback dispatch pipeline (src/evdev.c) of the
libinput snapshot: pending-event state machine, key/button press counting,
seat-slot allocation, wheel scrolling, capability detection, LED output and
calibration-matrix bookkeeping.

Machine integers are modelled as `Nat`/`Int`; the 32-bit seat slot map is
kept as a `Nat` and all bitwise operations are truncated to 32 bits exactly
where the C code operates on a 32-bit quantity.  The pointer-acceleration
filter (an opaque collaborator, `filter.h`) is a function parameter; its
`double` output is modelled over `Rat` (only its zero test matters to the
code under verification).  The effective calibration transform applied by
`matrix_mult_vec` (declared outside this tree) is likewise an abstract
per-device coordinate map.
-/

/-- Event type codes from linux/input.h used by the dispatcher. -/
def EV_SYN : Nat := 0

/-- EV_KEY type code. -/
def EV_KEY : Nat := 1

/-- EV_REL type code. -/
def EV_REL : Nat := 2

/-- EV_ABS type code. -/
def EV_ABS : Nat := 3

/-- EV_LED type code (0x11). -/
def EV_LED : Nat := 17

/-- SYN_REPORT event code. -/
def SYN_REPORT : Nat := 0

/-- REL_X axis code. -/
def REL_X : Nat := 0

/-- REL_Y axis code. -/
def REL_Y : Nat := 1

/-- REL_HWHEEL axis code (0x06). -/
def REL_HWHEEL : Nat := 6

/-- REL_WHEEL axis code (0x08). -/
def REL_WHEEL : Nat := 8

/-- ABS_X axis code. -/
def ABS_X : Nat := 0

/-- ABS_Y axis code. -/
def ABS_Y : Nat := 1

/-- ABS_MT_SLOT code (0x2f). -/
def ABS_MT_SLOT : Nat := 47

/-- ABS_MT_POSITION_X code (0x35). -/
def ABS_MT_POSITION_X : Nat := 53

/-- ABS_MT_POSITION_Y code (0x36). -/
def ABS_MT_POSITION_Y : Nat := 54

/-- ABS_MT_TRACKING_ID code (0x39). -/
def ABS_MT_TRACKING_ID : Nat := 57

/-- KEY_ESC keycode. -/
def KEY_ESC : Nat := 1

/-- KEY_MICMUTE keycode (248). -/
def KEY_MICMUTE : Nat := 248

/-- BTN_MISC keycode (0x100). -/
def BTN_MISC : Nat := 256

/-- BTN_TOUCH keycode (0x14a). -/
def BTN_TOUCH : Nat := 330

/-- BTN_GEAR_UP keycode (0x151). -/
def BTN_GEAR_UP : Nat := 337

/-- KEY_OK keycode (0x160). -/
def KEY_OK : Nat := 352

/-- KEY_LIGHTS_TOGGLE keycode (0x21e). -/
def KEY_LIGHTS_TOGGLE : Nat := 542

/-- BTN_DPAD_UP keycode (0x220). -/
def BTN_DPAD_UP : Nat := 544

/-- BTN_TRIGGER_HAPPY40 keycode (0x2e7). -/
def BTN_TRIGGER_HAPPY40 : Nat := 743

/-- KEY_MAX from linux/input.h (0x2ff). -/
def KEY_MAX : Nat := 767

/-- KEY_CNT = KEY_MAX + 1. -/
def KEY_CNT : Nat := 768

/-- LED_NUML code. -/
def LED_NUML : Nat := 0

/-- LED_CAPSL code. -/
def LED_CAPSL : Nat := 1

/-- LED_SCROLLL code. -/
def LED_SCROLLL : Nat := 2

/-- Modelled from the spec: the LED request bits accepted by the device
adapter (libinput.h is not part of the sources); NUM, CAPS and SCROLL lock
are encoded as the three low bits of the request word. -/
def LIBINPUT_LED_NUM_LOCK : Nat := 1

/-- Modelled from the spec: CAPS lock request bit. -/
def LIBINPUT_LED_CAPS_LOCK : Nat := 2

/-- Modelled from the spec: SCROLL lock request bit. -/
def LIBINPUT_LED_SCROLL_LOCK : Nat := 4

/-- The canonical scroll step distance (`DEFAULT_AXIS_STEP_DISTANCE`). -/
def DEFAULT_AXIS_STEP_DISTANCE : Int := 10

/-- The `enum evdev_pending_event` of src/evdev.c. -/
inductive EvdevPendingEvent
  | EVDEV_NONE
  | EVDEV_ABSOLUTE_TOUCH_DOWN
  | EVDEV_ABSOLUTE_MOTION
  | EVDEV_ABSOLUTE_TOUCH_UP
  | EVDEV_ABSOLUTE_MT_DOWN
  | EVDEV_ABSOLUTE_MT_MOTION
  | EVDEV_ABSOLUTE_MT_UP
  | EVDEV_RELATIVE_MOTION
  deriving DecidableEq, Repr

/-- The `enum evdev_key_type` of src/evdev.c. -/
inductive EvdevKeyType
  | EVDEV_KEY_TYPE_NONE
  | EVDEV_KEY_TYPE_KEY
  | EVDEV_KEY_TYPE_BUTTON
  deriving DecidableEq, Repr

/-- Seat capabilities granted to a device (the `EVDEV_DEVICE_POINTER`,
`EVDEV_DEVICE_KEYBOARD`, `EVDEV_DEVICE_TOUCH` bits of `device->seat_caps`,
modelled as a record of the three flags). -/
structure SeatCaps where
  pointer : Bool
  keyboard : Bool
  touch : Bool
  deriving DecidableEq, Repr

/-- One record of the multi-touch slot table (`struct mt_slot`). -/
structure MtSlot where
  seat_slot : Int
  x : Int
  y : Int
  deriving DecidableEq, Repr

/-- A raw kernel input event: 16-bit type and code, signed 32-bit value.
The timestamp is passed separately, already converted to milliseconds. -/
structure InputEvent where
  type : Nat
  code : Nat
  value : Int
  deriving DecidableEq, Repr

/-- The scroll axis of a pointer-axis notification. -/
inductive PointerAxis
  | LIBINPUT_POINTER_AXIS_SCROLL_VERTICAL
  | LIBINPUT_POINTER_AXIS_SCROLL_HORIZONTAL
  deriving DecidableEq, Repr

/-- The outbound notifications emitted by the fallback pipeline, in emission
order.  Filtered relative deltas are rationals (modelling doubles); all other
payloads are the integers the code passes through. -/
inductive Notification
  | pointer_motion (time : Nat) (dx dy : Rat)
  | pointer_motion_absolute (time : Nat) (x y : Int)
  | pointer_button (time : Nat) (button : Nat) (pressed : Bool)
  | pointer_axis (time : Nat) (axis : PointerAxis) (value : Int)
  | keyboard_key (time : Nat) (key : Nat) (pressed : Bool)
  | touch_down (time : Nat) (slot : Int) (seat_slot : Int) (x y : Int)
  | touch_motion (time : Nat) (slot : Int) (seat_slot : Int) (x y : Int)
  | touch_up (time : Nat) (slot : Int) (seat_slot : Int)
  | touch_frame (time : Nat)
  deriving DecidableEq, Repr

/-- The per-seat state shared by devices: the 32-bit seat slot bitmap. -/
structure LibinputSeat where
  slot_map : Nat
  deriving DecidableEq, Repr

/-- The per-device state of `struct evdev_device` used by the fallback
dispatcher.  `calibration` abstracts the effective-matrix application
`matrix_mult_vec` (defined outside this tree); `key_mask` and `key_count`
are the bitmap and per-code press counters sized `KEY_CNT` in C. -/
structure EvdevDevice where
  seat_caps : SeatCaps
  is_mt : Bool
  mt_slot : Int
  mt_slots : Int → MtSlot
  abs_x : Int
  abs_y : Int
  abs_seat_slot : Int
  apply_calibration : Bool
  calibration : Int → Int → Int × Int
  rel_dx : Int
  rel_dy : Int
  key_mask : Nat → Bool
  key_count : Nat → Int
  pending_event : EvdevPendingEvent

/-- The pointer-acceleration filter contract (`filter_dispatch`): maps the
accumulated integer deltas and the timestamp to filtered sub-pixel deltas. -/
def MotionFilter : Type := Int → Int → Nat → Rat × Rat

/-- `set_key_down`: record the last-observed state of a keycode in the
key bitmap (`long_set_bit_state(device->key_mask, code, pressed)`). -/
def set_key_down (device : EvdevDevice) (code : Nat) (pressed : Int) : EvdevDevice :=
  { device with key_mask := fun c => if c = code then pressed != 0 else device.key_mask c }

/-- `is_key_down`: test the key bitmap. -/
def is_key_down (device : EvdevDevice) (code : Nat) : Bool :=
  device.key_mask code

/-- `get_key_down_count`: read the per-code press counter. -/
def get_key_down_count (device : EvdevDevice) (code : Nat) : Int :=
  device.key_count code

/-- `update_key_down_count`: increment on press, decrement on release, and
return the new count.  The C function asserts `key_count > 0` before a
decrement and logs when a count exceeds 32; per the error-handling design
those are diagnostics only, so the model performs the arithmetic
unconditionally. -/
def update_key_down_count (device : EvdevDevice) (code : Nat) (pressed : Bool) :
    Int × EvdevDevice :=
  let key_count := if pressed then device.key_count code + 1 else device.key_count code - 1
  (key_count,
   { device with key_count := fun c => if c = code then key_count else device.key_count c })

/-- `evdev_keyboard_notify_key`: update the count and notify only on the
0-to-1 (pressed) or 1-to-0 (released) edge. -/
def evdev_keyboard_notify_key (device : EvdevDevice) (time : Nat) (key : Nat)
    (state : Bool) : EvdevDevice × List Notification :=
  let r := update_key_down_count device key state
  if (state = true ∧ r.1 = 1) ∨ (state = false ∧ r.1 = 0) then
    (r.2, [Notification.keyboard_key time key state])
  else
    (r.2, [])

/-- `evdev_pointer_notify_button`: update the count and notify only on the
0-to-1 (pressed) or 1-to-0 (released) edge. -/
def evdev_pointer_notify_button (device : EvdevDevice) (time : Nat) (button : Nat)
    (state : Bool) : EvdevDevice × List Notification :=
  let r := update_key_down_count device button state
  if (state = true ∧ r.1 = 1) ∨ (state = false ∧ r.1 = 0) then
    (r.2, [Notification.pointer_button time button state])
  else
    (r.2, [])

/-- An event written to the device file descriptor by the LED updater. -/
structure WrittenEvent where
  type : Nat
  code : Nat
  value : Int
  deriving DecidableEq, Repr

/-- The LED name-to-code map of `evdev_device_led_update`. -/
def led_map : List (Nat × Nat) :=
  [(LIBINPUT_LED_NUM_LOCK, LED_NUML),
   (LIBINPUT_LED_CAPS_LOCK, LED_CAPSL),
   (LIBINPUT_LED_SCROLL_LOCK, LED_SCROLLL)]

/-- `evdev_device_led_update`: nothing is written when the device lacks the
keyboard capability; otherwise one EV_LED event per map entry (value
`!!(leds & bit)`) followed by a SYN_REPORT is written.  The returned list is
the byte-for-byte sequence handed to `write`. -/
def evdev_device_led_update (device : EvdevDevice) (leds : Nat) : List WrittenEvent :=
  if device.seat_caps.keyboard = false then
    []
  else
    (led_map.map fun m =>
      WrittenEvent.mk EV_LED m.2 (if leds &&& m.1 != 0 then 1 else 0)) ++
    [WrittenEvent.mk EV_SYN SYN_REPORT 0]

/-- `get_key_type`: classify a keycode by the kernel keycode ranges. -/
def get_key_type (code : Nat) : EvdevKeyType :=
  if code = BTN_TOUCH then .EVDEV_KEY_TYPE_NONE
  else if KEY_ESC ≤ code ∧ code ≤ KEY_MICMUTE then .EVDEV_KEY_TYPE_KEY
  else if BTN_MISC ≤ code ∧ code ≤ BTN_GEAR_UP then .EVDEV_KEY_TYPE_BUTTON
  else if KEY_OK ≤ code ∧ code ≤ KEY_LIGHTS_TOGGLE then .EVDEV_KEY_TYPE_KEY
  else if BTN_DPAD_UP ≤ code ∧ code ≤ BTN_TRIGGER_HAPPY40 then .EVDEV_KEY_TYPE_BUTTON
  else .EVDEV_KEY_TYPE_NONE

/-- `transform_absolute`: apply the effective calibration to a coordinate
pair when calibration is enabled, else leave it unchanged. -/
def transform_absolute (device : EvdevDevice) (x y : Int) : Int × Int :=
  if device.apply_calibration = false then (x, y) else device.calibration x y

/-- Fueled least-significant-set-bit search: the helper behind `ffs`. -/
def ffsAux : Nat → Nat → Nat
  | _, 0 => 0
  | n, fuel + 1 =>
    if n = 0 then 0
    else if n % 2 = 1 then 1
    else ffsAux (n / 2) fuel + 1

/-- The C library `ffs` on a 32-bit operand: 0 when no bit is set, else the
1-based index of the least significant set bit. -/
def ffs (n : Nat) : Nat :=
  ffsAux (n % 2 ^ 32) 32

/-- `evdev_flush_pending_event`: emit the notification implied by the
pending event, update the slot bookkeeping and reset the pending state to
`EVDEV_NONE`.  Returns the new device, the new seat and the notifications
emitted, in order. -/
def evdev_flush_pending_event (filt : MotionFilter) (device : EvdevDevice)
    (seat : LibinputSeat) (time : Nat) :
    EvdevDevice × LibinputSeat × List Notification :=
  let slot := device.mt_slot
  match device.pending_event with
  | .EVDEV_NONE => (device, seat, [])
  | .EVDEV_RELATIVE_MOTION =>
    let motion := filt device.rel_dx device.rel_dy time
    let device := { device with rel_dx := 0, rel_dy := 0,
                                pending_event := .EVDEV_NONE }
    if motion.1 = 0 ∧ motion.2 = 0 then
      (device, seat, [])
    else
      (device, seat, [Notification.pointer_motion time motion.1 motion.2])
  | .EVDEV_ABSOLUTE_MT_DOWN =>
    if device.seat_caps.touch = false then
      ({ device with pending_event := .EVDEV_NONE }, seat, [])
    else if (device.mt_slots slot).seat_slot ≠ -1 then
      ({ device with pending_event := .EVDEV_NONE }, seat, [])
    else
      let seat_slot : Int :=
        (ffs ((2 ^ 32 - 1) ^^^ (seat.slot_map % 2 ^ 32)) : Int) - 1
      let device :=
        { device with mt_slots := fun i =>
            if i = slot then { device.mt_slots i with seat_slot := seat_slot }
            else device.mt_slots i }
      if seat_slot = -1 then
        ({ device with pending_event := .EVDEV_NONE }, seat, [])
      else
        let seat := { seat with slot_map := seat.slot_map ||| (1 <<< seat_slot.toNat) }
        let p := transform_absolute device (device.mt_slots slot).x (device.mt_slots slot).y
        ({ device with pending_event := .EVDEV_NONE }, seat,
         [Notification.touch_down time slot seat_slot p.1 p.2])
  | .EVDEV_ABSOLUTE_MT_MOTION =>
    if device.seat_caps.touch = false then
      ({ device with pending_event := .EVDEV_NONE }, seat, [])
    else
      let seat_slot := (device.mt_slots slot).seat_slot
      if seat_slot = -1 then
        ({ device with pending_event := .EVDEV_NONE }, seat, [])
      else
        let p := transform_absolute device (device.mt_slots slot).x (device.mt_slots slot).y
        ({ device with pending_event := .EVDEV_NONE }, seat,
         [Notification.touch_motion time slot seat_slot p.1 p.2])
  | .EVDEV_ABSOLUTE_MT_UP =>
    if device.seat_caps.touch = false then
      ({ device with pending_event := .EVDEV_NONE }, seat, [])
    else
      let seat_slot := (device.mt_slots slot).seat_slot
      let device :=
        { device with mt_slots := fun i =>
            if i = slot then { device.mt_slots i with seat_slot := -1 }
            else device.mt_slots i }
      if seat_slot = -1 then
        ({ device with pending_event := .EVDEV_NONE }, seat, [])
      else
        let seat := { seat with
          slot_map := seat.slot_map &&& ((2 ^ 32 - 1) ^^^ (1 <<< seat_slot.toNat)) }
        ({ device with pending_event := .EVDEV_NONE }, seat,
         [Notification.touch_up time slot seat_slot])
  | .EVDEV_ABSOLUTE_TOUCH_DOWN =>
    if device.seat_caps.touch = false then
      ({ device with pending_event := .EVDEV_NONE }, seat, [])
    else if device.abs_seat_slot ≠ -1 then
      ({ device with pending_event := .EVDEV_NONE }, seat, [])
    else
      let seat_slot : Int :=
        (ffs ((2 ^ 32 - 1) ^^^ (seat.slot_map % 2 ^ 32)) : Int) - 1
      let device := { device with abs_seat_slot := seat_slot }
      if seat_slot = -1 then
        ({ device with pending_event := .EVDEV_NONE }, seat, [])
      else
        let seat := { seat with slot_map := seat.slot_map ||| (1 <<< seat_slot.toNat) }
        let p := transform_absolute device device.abs_x device.abs_y
        ({ device with pending_event := .EVDEV_NONE }, seat,
         [Notification.touch_down time (-1) seat_slot p.1 p.2])
  | .EVDEV_ABSOLUTE_MOTION =>
    let p := transform_absolute device device.abs_x device.abs_y
    if device.seat_caps.touch = true then
      let seat_slot := device.abs_seat_slot
      if seat_slot = -1 then
        ({ device with pending_event := .EVDEV_NONE }, seat, [])
      else
        ({ device with pending_event := .EVDEV_NONE }, seat,
         [Notification.touch_motion time (-1) seat_slot p.1 p.2])
    else if device.seat_caps.pointer = true then
      ({ device with pending_event := .EVDEV_NONE }, seat,
       [Notification.pointer_motion_absolute time p.1 p.2])
    else
      ({ device with pending_event := .EVDEV_NONE }, seat, [])
  | .EVDEV_ABSOLUTE_TOUCH_UP =>
    if device.seat_caps.touch = false then
      ({ device with pending_event := .EVDEV_NONE }, seat, [])
    else
      let seat_slot := device.abs_seat_slot
      let device := { device with abs_seat_slot := -1 }
      if seat_slot = -1 then
        ({ device with pending_event := .EVDEV_NONE }, seat, [])
      else
        let seat := { seat with
          slot_map := seat.slot_map &&& ((2 ^ 32 - 1) ^^^ (1 <<< seat_slot.toNat)) }
        ({ device with pending_event := .EVDEV_NONE }, seat,
         [Notification.touch_up time (-1) seat_slot])

/-- `evdev_process_touch_button` (non-MT BTN_TOUCH): flush unless the
pending event is NONE or ABSOLUTE_MOTION, then arm a touch down or up
according to the value. -/
def evdev_process_touch_button (filt : MotionFilter) (device : EvdevDevice)
    (seat : LibinputSeat) (time : Nat) (value : Int) :
    EvdevDevice × LibinputSeat × List Notification :=
  let r :=
    if device.pending_event ≠ .EVDEV_NONE ∧
       device.pending_event ≠ .EVDEV_ABSOLUTE_MOTION then
      evdev_flush_pending_event filt device seat time
    else
      (device, seat, [])
  ({ r.1 with pending_event :=
      if value != 0 then .EVDEV_ABSOLUTE_TOUCH_DOWN else .EVDEV_ABSOLUTE_TOUCH_UP },
   r.2.1, r.2.2)

/-- `evdev_process_key`: ignore kernel repeats (value 2), divert BTN_TOUCH
on non-MT devices, flush the pending event, drop releases of keys the
bitmap never saw pressed, then update the bitmap and emit edge-triggered
key or button notifications according to the keycode class. -/
def evdev_process_key (filt : MotionFilter) (device : EvdevDevice)
    (seat : LibinputSeat) (e : InputEvent) (time : Nat) :
    EvdevDevice × LibinputSeat × List Notification :=
  if e.value = 2 then
    (device, seat, [])
  else if e.code = BTN_TOUCH then
    if device.is_mt = false then
      evdev_process_touch_button filt device seat time e.value
    else
      (device, seat, [])
  else
    let r := evdev_flush_pending_event filt device seat time
    let device := r.1
    let seat := r.2.1
    let ty := get_key_type e.code
    if e.value = 0 ∧ ty ≠ .EVDEV_KEY_TYPE_NONE ∧ is_key_down device e.code = false then
      (device, seat, r.2.2)
    else
      let device := set_key_down device e.code e.value
      match ty with
      | .EVDEV_KEY_TYPE_NONE => (device, seat, r.2.2)
      | .EVDEV_KEY_TYPE_KEY =>
        let k := evdev_keyboard_notify_key device time e.code (e.value != 0)
        (k.1, seat, r.2.2 ++ k.2)
      | .EVDEV_KEY_TYPE_BUTTON =>
        let k := evdev_pointer_notify_button device time e.code (e.value != 0)
        (k.1, seat, r.2.2 ++ k.2)

/-- `evdev_process_touch` (MT axes): slot switches flush; tracking-id
transitions flush unless the pending event is NONE or MT motion and then arm
a down or up; position updates record coordinates and arm MT motion when
nothing is pending. -/
def evdev_process_touch (filt : MotionFilter) (device : EvdevDevice)
    (seat : LibinputSeat) (e : InputEvent) (time : Nat) :
    EvdevDevice × LibinputSeat × List Notification :=
  if e.code = ABS_MT_SLOT then
    let r := evdev_flush_pending_event filt device seat time
    ({ r.1 with mt_slot := e.value }, r.2.1, r.2.2)
  else if e.code = ABS_MT_TRACKING_ID then
    let r :=
      if device.pending_event ≠ .EVDEV_NONE ∧
         device.pending_event ≠ .EVDEV_ABSOLUTE_MT_MOTION then
        evdev_flush_pending_event filt device seat time
      else
        (device, seat, [])
    ({ r.1 with pending_event :=
        if e.value ≥ 0 then .EVDEV_ABSOLUTE_MT_DOWN else .EVDEV_ABSOLUTE_MT_UP },
     r.2.1, r.2.2)
  else if e.code = ABS_MT_POSITION_X then
    let device :=
      { device with mt_slots := fun i =>
          if i = device.mt_slot then { device.mt_slots i with x := e.value }
          else device.mt_slots i }
    ({ device with pending_event :=
        if device.pending_event = .EVDEV_NONE then .EVDEV_ABSOLUTE_MT_MOTION
        else device.pending_event },
     seat, [])
  else if e.code = ABS_MT_POSITION_Y then
    let device :=
      { device with mt_slots := fun i =>
          if i = device.mt_slot then { device.mt_slots i with y := e.value }
          else device.mt_slots i }
    ({ device with pending_event :=
        if device.pending_event = .EVDEV_NONE then .EVDEV_ABSOLUTE_MT_MOTION
        else device.pending_event },
     seat, [])
  else
    (device, seat, [])

/-- `evdev_process_absolute_motion` (non-MT ABS axes): record the
coordinate and arm ABSOLUTE_MOTION when nothing is pending. -/
def evdev_process_absolute_motion (device : EvdevDevice) (e : InputEvent) :
    EvdevDevice :=
  if e.code = ABS_X then
    { device with abs_x := e.value,
                  pending_event :=
                    if device.pending_event = .EVDEV_NONE then .EVDEV_ABSOLUTE_MOTION
                    else device.pending_event }
  else if e.code = ABS_Y then
    { device with abs_y := e.value,
                  pending_event :=
                    if device.pending_event = .EVDEV_NONE then .EVDEV_ABSOLUTE_MOTION
                    else device.pending_event }
  else
    device

/-- `evdev_process_relative`: REL_X/REL_Y accumulate (flushing first when a
different event is pending); wheels flush and then emit a scroll axis
notification. -/
def evdev_process_relative (filt : MotionFilter) (device : EvdevDevice)
    (seat : LibinputSeat) (e : InputEvent) (time : Nat) :
    EvdevDevice × LibinputSeat × List Notification :=
  if e.code = REL_X then
    let r :=
      if device.pending_event ≠ .EVDEV_RELATIVE_MOTION then
        evdev_flush_pending_event filt device seat time
      else
        (device, seat, [])
    ({ r.1 with rel_dx := r.1.rel_dx + e.value,
                pending_event := .EVDEV_RELATIVE_MOTION },
     r.2.1, r.2.2)
  else if e.code = REL_Y then
    let r :=
      if device.pending_event ≠ .EVDEV_RELATIVE_MOTION then
        evdev_flush_pending_event filt device seat time
      else
        (device, seat, [])
    ({ r.1 with rel_dy := r.1.rel_dy + e.value,
                pending_event := .EVDEV_RELATIVE_MOTION },
     r.2.1, r.2.2)
  else if e.code = REL_WHEEL then
    let r := evdev_flush_pending_event filt device seat time
    (r.1, r.2.1,
     r.2.2 ++ [Notification.pointer_axis time
       .LIBINPUT_POINTER_AXIS_SCROLL_VERTICAL
       (-1 * e.value * DEFAULT_AXIS_STEP_DISTANCE)])
  else if e.code = REL_HWHEEL then
    let r := evdev_flush_pending_event filt device seat time
    if e.value = -1 ∨ e.value = 1 then
      (r.1, r.2.1,
       r.2.2 ++ [Notification.pointer_axis time
         .LIBINPUT_POINTER_AXIS_SCROLL_HORIZONTAL
         (e.value * DEFAULT_AXIS_STEP_DISTANCE)])
    else
      (r.1, r.2.1, r.2.2)
  else
    (device, seat, [])

/-- `evdev_process_absolute`: MT devices route ABS events to the touch
handler, others to the plain absolute-motion handler. -/
def evdev_process_absolute (filt : MotionFilter) (device : EvdevDevice)
    (seat : LibinputSeat) (e : InputEvent) (time : Nat) :
    EvdevDevice × LibinputSeat × List Notification :=
  if device.is_mt = true then
    evdev_process_touch filt device seat e time
  else
    (evdev_process_absolute_motion device e, seat, [])

/-- `evdev_need_touch_frame`: a frame is due when the device is
touch-capable and the pending event is any absolute or touch kind. -/
def evdev_need_touch_frame (device : EvdevDevice) : Bool :=
  if device.seat_caps.touch = false then
    false
  else
    match device.pending_event with
    | .EVDEV_NONE => false
    | .EVDEV_RELATIVE_MOTION => false
    | .EVDEV_ABSOLUTE_MT_DOWN => true
    | .EVDEV_ABSOLUTE_MT_MOTION => true
    | .EVDEV_ABSOLUTE_MT_UP => true
    | .EVDEV_ABSOLUTE_TOUCH_DOWN => true
    | .EVDEV_ABSOLUTE_TOUCH_UP => true
    | .EVDEV_ABSOLUTE_MOTION => true

/-- `fallback_process`: dispatch one raw event.  EV_SYN (any code) records
whether a touch frame is due, flushes, and appends the frame
notification. -/
def fallback_process (filt : MotionFilter) (device : EvdevDevice)
    (seat : LibinputSeat) (e : InputEvent) (time : Nat) :
    EvdevDevice × LibinputSeat × List Notification :=
  if e.type = EV_REL then
    evdev_process_relative filt device seat e time
  else if e.type = EV_ABS then
    evdev_process_absolute filt device seat e time
  else if e.type = EV_KEY then
    evdev_process_key filt device seat e time
  else if e.type = EV_SYN then
    let need_frame := evdev_need_touch_frame device
    let r := evdev_flush_pending_event filt device seat time
    (r.1, r.2.1,
     r.2.2 ++ (if need_frame = true then [Notification.touch_frame time] else []))
  else
    (device, seat, [])

/-- Process a list of timestamped events through the fallback dispatcher,
collecting all notifications in order. -/
def fallback_process_events (filt : MotionFilter) (device : EvdevDevice)
    (seat : LibinputSeat) : List (InputEvent × Nat) →
    EvdevDevice × LibinputSeat × List Notification
  | [] => (device, seat, [])
  | (e, t) :: rest =>
    let r := fallback_process filt device seat e t
    let rr := fallback_process_events filt r.1 r.2.1 rest
    (rr.1, rr.2.1, r.2.2 ++ rr.2.2)

/-- The capabilities a device advertises, as probed through libevdev at
configuration time (`evdev_configure_device`).  `key_codes` is the EV_KEY
code predicate `libevdev_has_event_code(evdev, EV_KEY, i)`; the remaining
fields mirror the individual libevdev queries the function makes.  The
`_ok` fields stand for the success of the external allocations the function
performs (mtdev fallback, slot table, touchpad dispatcher, pointer
acceleration filter). -/
structure LibevdevModel where
  has_EV_ABS : Bool
  abs_x_info : Bool
  abs_y_info : Bool
  has_mt_position_x : Bool
  has_mt_position_y : Bool
  has_mt_slot_code : Bool
  mtdev_open_ok : Bool
  mtdev_valid_slots : Bool
  slots_alloc_ok : Bool
  has_rel_x : Bool
  has_rel_y : Bool
  has_EV_KEY : Bool
  prop_direct : Bool
  btn_tool_finger : Bool
  btn_tool_pen : Bool
  key_codes : Nat → Bool
  has_EV_LED : Bool
  tp_create_ok : Bool
  tp_caps : SeatCaps
  accel_ok : Bool

/-- Outcome of `evdev_configure_device`: -1, the touchpad dispatcher path
(whose seat capabilities are assigned by the external touchpad unit), or the
fallback path with the computed seat capabilities. -/
inductive ConfigureResult
  | error
  | touchpad (caps : SeatCaps)
  | fallback (caps : SeatCaps)
  deriving DecidableEq, Repr

/-- One iteration of the key-code scan loop of `evdev_configure_device`:
a supported KEY-class code sets the keyboard flag, a BUTTON-class code the
button flag. -/
def scan_step (key_codes : Nat → Bool) (acc : Bool × Bool) (i : Nat) :
    Bool × Bool :=
  if key_codes i then
    match get_key_type i with
    | .EVDEV_KEY_TYPE_NONE => acc
    | .EVDEV_KEY_TYPE_KEY => (true, acc.2)
    | .EVDEV_KEY_TYPE_BUTTON => (acc.1, true)
  else acc

/-- The scan over `[0, KEY_MAX)` of `evdev_configure_device` that derives
(has_keyboard, has_button) from the supported EV_KEY codes. -/
def scan_key_codes (key_codes : Nat → Bool) : Bool × Bool :=
  (List.range KEY_MAX).foldl (scan_step key_codes) (false, false)

/-- `evdev_configure_device`: derive has_abs/has_mt/has_rel/has_button/
has_keyboard/has_touch from the probe, divert indirect finger devices to the
touchpad dispatcher, and grant the pointer, keyboard and touch seat
capabilities. -/
def evdev_configure_device (ev : LibevdevModel) : ConfigureResult :=
  let has_abs := ev.has_EV_ABS ∧ (ev.abs_x_info ∨ ev.abs_y_info)
  let has_mt := ev.has_EV_ABS ∧ ev.has_mt_position_x ∧ ev.has_mt_position_y
  let mt_setup_failed :=
    has_mt ∧ ((¬ev.has_mt_slot_code ∧ (¬ev.mtdev_open_ok ∨ ¬ev.mtdev_valid_slots)) ∨
              ¬ev.slots_alloc_ok)
  if mt_setup_failed then .error
  else
    let has_rel := ev.has_rel_x ∨ ev.has_rel_y
    let touchpad_path :=
      ev.has_EV_KEY ∧ ¬ev.prop_direct ∧ ev.btn_tool_finger ∧ ¬ev.btn_tool_pen ∧
      (has_abs ∨ has_mt)
    if touchpad_path then
      if ev.tp_create_ok then .touchpad ev.tp_caps else .error
    else
      let scan := scan_key_codes ev.key_codes
      let has_keyboard := (ev.has_EV_KEY ∧ scan.1 = true) ∨ ev.has_EV_LED
      let has_button := ev.has_EV_KEY ∧ scan.2 = true
      let has_touch := has_mt ∨ (ev.has_EV_KEY ∧ ev.key_codes BTN_TOUCH = true)
      let pointer_grant := (has_abs ∨ has_rel) ∧ has_button
      if pointer_grant ∧ ¬ev.accel_ok then .error
      else
        .fallback
          { pointer := decide pointer_grant,
            keyboard := decide has_keyboard,
            touch := decide (has_touch ∧ ¬has_button) }

/-- Outcome of `evdev_device_create`: a live device with its seat
capabilities, the NULL error sentinel, or the distinct
EVDEV_UNHANDLED_DEVICE sentinel. -/
inductive CreateResult
  | success (caps : SeatCaps)
  | failure
  | unhandled_device
  deriving DecidableEq, Repr

/-- The external preconditions of `evdev_device_create` that precede and
follow configuration: opening the node, allocating the device, creating the
libevdev handle, allocating the fallback dispatch and registering the fd
source. -/
structure CreateEnv where
  open_ok : Bool
  zalloc_ok : Bool
  libevdev_new_ok : Bool
  dispatch_alloc_ok : Bool
  source_add_ok : Bool

/-- `evdev_device_create`: run the configuration; zero granted capabilities
turn into the unhandled-device sentinel, every other failure into NULL. -/
def evdev_device_create (env : CreateEnv) (ev : LibevdevModel) : CreateResult :=
  if env.open_ok = false then .failure
  else if env.zalloc_ok = false then .failure
  else if env.libevdev_new_ok = false then .failure
  else
    match evdev_configure_device ev with
    | .error => .failure
    | .touchpad caps =>
      if caps = SeatCaps.mk false false false then .unhandled_device
      else if env.source_add_ok = false then .failure
      else .success caps
    | .fallback caps =>
      if caps = SeatCaps.mk false false false then .unhandled_device
      else if env.dispatch_alloc_ok = false then .failure
      else if env.source_add_ok = false then .failure
      else .success caps

/-- Modelled from the spec: the calibration matrix helpers
(`matrix_from_farray6`, `matrix_to_farray6`, `matrix_is_identity`,
`matrix_init_identity`, `matrix_init_translate`, `matrix_init_scale`,
`matrix_mult`) live in libinput-util.h, which is not under src/.  A matrix
is the six floats a,b,c,d,e,f of the affine map with implicit bottom row
[0,0,1]; float values are modelled as rationals, so storing and comparing
are bit-exact as the spec requires. -/
structure Mat where
  a : Rat
  b : Rat
  c : Rat
  d : Rat
  e : Rat
  f : Rat
  deriving DecidableEq, Repr

/-- Modelled from the spec: identity-init. -/
def matrix_init_identity : Mat := Mat.mk 1 0 0 0 1 0

/-- Modelled from the spec: bit-exact identity test. -/
def matrix_is_identity (m : Mat) : Bool :=
  m = matrix_init_identity

/-- Modelled from the spec: load a matrix from its six-float row-major
array (identified with the matrix itself in the model). -/
def matrix_from_farray6 (v : Mat) : Mat := v

/-- Modelled from the spec: store a matrix to its six-float row-major
array. -/
def matrix_to_farray6 (m : Mat) : Mat := m

/-- Modelled from the spec: a translation matrix. -/
def matrix_init_translate (x y : Rat) : Mat := Mat.mk 1 0 x 0 1 y

/-- Modelled from the spec: a scale matrix. -/
def matrix_init_scale (sx sy : Rat) : Mat := Mat.mk sx 0 0 0 sy 0

/-- Modelled from the spec: the affine product dest = m1 * m2 (matrix
products apply right-to-left to coordinates). -/
def matrix_mult (m1 m2 : Mat) : Mat :=
  Mat.mk
    (m1.a * m2.a + m1.b * m2.d)
    (m1.a * m2.b + m1.b * m2.e)
    (m1.a * m2.c + m1.b * m2.f + m1.c)
    (m1.d * m2.a + m1.e * m2.d)
    (m1.d * m2.b + m1.e * m2.e)
    (m1.d * m2.c + m1.e * m2.f + m1.f)

/-- The calibration-related state of a device: the absolute-axis ranges and
the three matrices (user, default, effective) together with the
apply flag. -/
structure DeviceCalibState where
  absinfo_x_min : Int
  absinfo_x_max : Int
  absinfo_y_min : Int
  absinfo_y_max : Int
  apply_calib : Bool
  calibration : Mat
  usermatrix : Mat
  default_calibration : Mat
  deriving DecidableEq, Repr

/-- `evdev_device_calibrate`: set the apply flag from the identity test; on
identity reset the effective matrix and return early (the user matrix is
not touched); otherwise back up the user matrix and compose
Un-normalize * Calibration * Normalize into the effective matrix. -/
def evdev_device_calibrate (dev : DeviceCalibState) (calibration : Mat) :
    DeviceCalibState :=
  let transform := matrix_from_farray6 calibration
  let apply := !matrix_is_identity transform
  if apply = false then
    { dev with apply_calib := false, calibration := matrix_init_identity }
  else
    let sx : Rat := ((dev.absinfo_x_max - dev.absinfo_x_min + 1 : Int) : Rat)
    let sy : Rat := ((dev.absinfo_y_max - dev.absinfo_y_min + 1 : Int) : Rat)
    let dev := { dev with apply_calib := true,
                          usermatrix := matrix_from_farray6 calibration }
    let translate :=
      matrix_init_translate ((dev.absinfo_x_min : Rat)) ((dev.absinfo_y_min : Rat))
    let scale := matrix_init_scale sx sy
    let scale := matrix_mult translate scale
    let transform := matrix_mult scale transform
    let translate :=
      matrix_init_translate (-(dev.absinfo_x_min : Rat) / sx)
                            (-(dev.absinfo_y_min : Rat) / sy)
    let scaleN := matrix_init_scale (1 / sx) (1 / sy)
    let scaleN := matrix_mult translate scaleN
    { dev with calibration := matrix_mult transform scaleN }

/-- `evdev_calibration_set_matrix`: forward to `evdev_device_calibrate`
(the LIBINPUT_CONFIG_STATUS_SUCCESS return carries no information). -/
def evdev_calibration_set_matrix (dev : DeviceCalibState) (matrix : Mat) :
    DeviceCalibState :=
  evdev_device_calibrate dev matrix

/-- `evdev_calibration_get_matrix`: return the stored user matrix and
whether it differs from the identity. -/
def evdev_calibration_get_matrix (dev : DeviceCalibState) : Mat × Bool :=
  (matrix_to_farray6 dev.usermatrix, !matrix_is_identity dev.usermatrix)

/-- Whether a notification is a touch down, motion or up (the three kinds
the touch-frame wording of the interface section counts). -/
def isTouchNotification : Notification → Bool
  | .touch_down _ _ _ _ _ => true
  | .touch_motion _ _ _ _ _ => true
  | .touch_up _ _ _ => true
  | _ => false

/-- The key-bookkeeping invariant maintained by the dispatcher: no count is
negative, and a classified keycode whose bitmap bit is set has a positive
count. -/
def KeyInv (device : EvdevDevice) : Prop :=
  ∀ c, 0 ≤ device.key_count c ∧
    (device.key_mask c = true → get_key_type c ≠ .EVDEV_KEY_TYPE_NONE →
      1 ≤ device.key_count c)

/-- A pass-through acceleration filter (used to instantiate theorems on
concrete runs). -/
def idFilter : MotionFilter := fun dx dy _ => ((dx : Rat), (dy : Rat))

/-- A freshly created fallback device with no capabilities: state as
initialized by `evdev_device_create`. -/
def freshDevice : EvdevDevice where
  seat_caps := SeatCaps.mk false false false
  is_mt := false
  mt_slot := 0
  mt_slots := fun _ => MtSlot.mk (-1) 0 0
  abs_x := 0
  abs_y := 0
  abs_seat_slot := -1
  apply_calibration := false
  calibration := fun x y => (x, y)
  rel_dx := 0
  rel_dy := 0
  key_mask := fun _ => false
  key_count := fun _ => 0
  pending_event := .EVDEV_NONE

/-- A fresh multi-touch touchscreen (touch capability only). -/
def mtTouchDevice : EvdevDevice :=
  { freshDevice with seat_caps := SeatCaps.mk false false true, is_mt := true }

/-- A fresh keyboard-capable device. -/
def kbdDevice : EvdevDevice :=
  { freshDevice with seat_caps := SeatCaps.mk false true false }

/-- A pointer device with a relative motion pending (dx=3, dy=0). -/
def pendingRelDevice : EvdevDevice :=
  { freshDevice with seat_caps := SeatCaps.mk true false false,
                     rel_dx := 3,
                     pending_event := .EVDEV_RELATIVE_MOTION }

/-- A multi-touch device with a touch-down pending on slot 0. -/
def pendingMtDownDevice : EvdevDevice :=
  { mtTouchDevice with pending_event := .EVDEV_ABSOLUTE_MT_DOWN }

/-- A single-touch device with a touch-down pending. -/
def pendingAbsDownDevice : EvdevDevice :=
  { freshDevice with seat_caps := SeatCaps.mk false false true,
                     pending_event := .EVDEV_ABSOLUTE_TOUCH_DOWN }

/-- An empty seat. -/
def emptySeat : LibinputSeat := LibinputSeat.mk 0

/-- A seat whose slots 0, 1 and 2 are taken. -/
def seat7 : LibinputSeat := LibinputSeat.mk 7

/-- A seat with all 32 slots taken. -/
def fullSeat : LibinputSeat := LibinputSeat.mk (2 ^ 32 - 1)

/-- Device calibration state as initialized at creation (identity matrices)
over a 0..100 x 0..100 absolute range. -/
def freshCalibState : DeviceCalibState where
  absinfo_x_min := 0
  absinfo_x_max := 100
  absinfo_y_min := 0
  absinfo_y_max := 100
  apply_calib := false
  calibration := matrix_init_identity
  usermatrix := matrix_init_identity
  default_calibration := matrix_init_identity

/-- A non-identity user calibration matrix. -/
def scaleMat : Mat := Mat.mk 2 0 0 0 2 0

/-- A probe description advertising nothing at all (all allocations
succeed). -/
def emptyProbe : LibevdevModel where
  has_EV_ABS := false
  abs_x_info := false
  abs_y_info := false
  has_mt_position_x := false
  has_mt_position_y := false
  has_mt_slot_code := true
  mtdev_open_ok := true
  mtdev_valid_slots := true
  slots_alloc_ok := true
  has_rel_x := false
  has_rel_y := false
  has_EV_KEY := false
  prop_direct := false
  btn_tool_finger := false
  btn_tool_pen := false
  key_codes := fun _ => false
  has_EV_LED := false
  tp_create_ok := true
  tp_caps := SeatCaps.mk false false false
  accel_ok := true

/-- An all-success creation environment. -/
def okEnv : CreateEnv where
  open_ok := true
  zalloc_ok := true
  libevdev_new_ok := true
  dispatch_alloc_ok := true
  source_add_ok := true

lemma flush_preserves_key_state (filt : MotionFilter) (device : EvdevDevice)
    (seat : LibinputSeat) (time : Nat) :
    (evdev_flush_pending_event filt device seat time).1.key_count = device.key_count ∧
    (evdev_flush_pending_event filt device seat time).1.key_mask = device.key_mask := by
  cases hp : device.pending_event <;>
    simp only [evdev_flush_pending_event, hp] <;>
    (repeat' split) <;> simp

lemma ffsAux_eq_of_testBit :
    ∀ (k n fuel : Nat), k < fuel → n.testBit k = true →
      (∀ j, j < k → n.testBit j = false) → ffsAux n fuel = k + 1 := by
  intro k
  induction k with
  | zero =>
    intro n fuel hf hb _
    cases fuel with
    | zero => omega
    | succ f =>
      have h0 : n % 2 = 1 := by simpa [Nat.testBit_zero] using hb
      have hn0 : n ≠ 0 := by
        intro h
        rw [h] at hb
        simp [Nat.zero_testBit] at hb
      simp [ffsAux, hn0, h0]
  | succ k ih =>
    intro n fuel hf hb hlow
    cases fuel with
    | zero => omega
    | succ f =>
      have h0 : n.testBit 0 = false := hlow 0 (Nat.succ_pos k)
      have h0' : ¬n % 2 = 1 := by simpa [Nat.testBit_zero] using h0
      have hn0 : n ≠ 0 := by
        intro h
        rw [h] at hb
        simp [Nat.zero_testBit] at hb
      have hrec : ffsAux n (f + 1) = ffsAux (n / 2) f + 1 := by
        simp [ffsAux, hn0, h0']
      have hb2 : (n / 2).testBit k = true := by
        rw [← Nat.testBit_succ]
        exact hb
      have hlow2 : ∀ j, j < k → (n / 2).testBit j = false := by
        intro j hj
        rw [← Nat.testBit_succ]
        exact hlow (j + 1) (by omega)
      rw [hrec, ih (n / 2) f (by omega) hb2 hlow2]

lemma ffs_complement_least_clear (m k : Nat) (hm : m < 2 ^ 32) (hk : k < 32)
    (h1 : Nat.testBit m k = false) (h2 : ∀ j, j < k → Nat.testBit m j = true) :
    ffs ((2 ^ 32 - 1) ^^^ (m % 2 ^ 32)) = k + 1 := by
  have hmod : m % 2 ^ 32 = m := Nat.mod_eq_of_lt hm
  rw [hmod]
  have hmask : (2 : Nat) ^ 32 - 1 < 2 ^ 32 := Nat.sub_lt (Nat.two_pow_pos 32) one_pos
  have hc : (2 ^ 32 - 1) ^^^ m < 2 ^ 32 := Nat.xor_lt_two_pow hmask hm
  unfold ffs
  rw [Nat.mod_eq_of_lt hc]
  apply ffsAux_eq_of_testBit k _ 32 hk
  · rw [Nat.testBit_xor, Nat.testBit_two_pow_sub_one, h1]
    simp [hk]
  · intro j hj
    rw [Nat.testBit_xor, Nat.testBit_two_pow_sub_one, h2 j hj]
    simp
    omega

lemma ffs_complement_full :
    ffs ((2 ^ 32 - 1) ^^^ ((2 ^ 32 - 1) % 2 ^ 32)) = 0 := by
  have hmask : (2 : Nat) ^ 32 - 1 < 2 ^ 32 := Nat.sub_lt (Nat.two_pow_pos 32) one_pos
  rw [Nat.mod_eq_of_lt hmask, Nat.xor_self]
  simp [ffs, ffsAux]

/-- C4: for every device state and timestamp `evdev_flush_pending_event`
leaves `pending_event = EVDEV_NONE`, whatever the pending event was on
entry; consequently processing any EV_SYN event (in particular SYN_REPORT)
through `fallback_process` leaves the pending event NONE. -/
theorem flush_resets_pending (filt : MotionFilter) (device : EvdevDevice)
    (seat : LibinputSeat) (time : Nat) :
    (evdev_flush_pending_event filt device seat time).1.pending_event =
      .EVDEV_NONE ∧
    ∀ code value,
      (fallback_process filt device seat (InputEvent.mk EV_SYN code value)
        time).1.pending_event = .EVDEV_NONE := by
  have hf : (evdev_flush_pending_event filt device seat time).1.pending_event =
      .EVDEV_NONE := by
    cases hp : device.pending_event <;>
      simp only [evdev_flush_pending_event, hp] <;>
      (repeat' split) <;> simp [hp]
  refine ⟨hf, fun code value => ?_⟩
  simpa [fallback_process, EV_SYN, EV_REL, EV_ABS, EV_KEY] using hf

/-- C10: the LED updater writes nothing when the device lacks the keyboard
capability, and otherwise writes exactly the three EV_LED events (NUM, CAPS,
SCROLL lock, each value 1 exactly when the corresponding request bit is
set) followed by one SYN_REPORT. -/
theorem led_update_write_sequence (device : EvdevDevice) (leds : Nat) :
    (device.seat_caps.keyboard = false →
      evdev_device_led_update device leds = []) ∧
    (device.seat_caps.keyboard = true →
      evdev_device_led_update device leds =
        [WrittenEvent.mk EV_LED LED_NUML
           (if leds &&& LIBINPUT_LED_NUM_LOCK != 0 then 1 else 0),
         WrittenEvent.mk EV_LED LED_CAPSL
           (if leds &&& LIBINPUT_LED_CAPS_LOCK != 0 then 1 else 0),
         WrittenEvent.mk EV_LED LED_SCROLLL
           (if leds &&& LIBINPUT_LED_SCROLL_LOCK != 0 then 1 else 0),
         WrittenEvent.mk EV_SYN SYN_REPORT 0]) := by
  constructor <;> intro h <;> simp [evdev_device_led_update, led_map, h]

/-- Witness for C10: a keyboard device with NUM and SCROLL requested writes
the corresponding 1/0 values and the closing SYN_REPORT; a device without
the keyboard capability writes nothing. -/
theorem led_update_write_sequence_witness :
    evdev_device_led_update kbdDevice 5 =
      [WrittenEvent.mk EV_LED LED_NUML 1,
       WrittenEvent.mk EV_LED LED_CAPSL 0,
       WrittenEvent.mk EV_LED LED_SCROLLL 1,
       WrittenEvent.mk EV_SYN SYN_REPORT 0] ∧
    evdev_device_led_update freshDevice 5 = [] := by
  constructor
  · have h := (led_update_write_sequence kbdDevice 5).2 (by decide)
    simpa using h
  · exact (led_update_write_sequence freshDevice 5).1 (by decide)

/-- C2 counterexample: the set/get round trip fails for the identity
matrix.  After setting the non-identity matrix `scaleMat` and then setting
the identity matrix, the getter still returns `scaleMat`: the early return
of `evdev_device_calibrate` skips the user-matrix backup when the supplied
matrix is the identity. -/
theorem calibration_roundtrip_counterexample :
    (evdev_calibration_get_matrix
      (evdev_calibration_set_matrix
        (evdev_calibration_set_matrix freshCalibState scaleMat)
        matrix_init_identity)).1 = scaleMat ∧
    scaleMat ≠ matrix_init_identity := by
  constructor
  · decide
  · decide

/-- C2 amended: setting a non-identity matrix M round-trips bit-exactly
through the getter whatever the prior state; setting the identity matrix
leaves the stored user matrix untouched, so the getter returns the
previous user matrix (which equals M only if it was already the
identity). -/
theorem calibration_set_get_matrix (dev : DeviceCalibState) (M : Mat) :
    (matrix_is_identity M = false →
      (evdev_calibration_get_matrix (evdev_calibration_set_matrix dev M)).1 = M) ∧
    (matrix_is_identity M = true →
      (evdev_calibration_get_matrix (evdev_calibration_set_matrix dev M)).1 =
        matrix_to_farray6 dev.usermatrix) := by
  constructor <;> intro h <;>
    simp [evdev_calibration_set_matrix, evdev_device_calibrate,
          evdev_calibration_get_matrix, matrix_from_farray6, matrix_to_farray6, h]

/-- Witness for the amended C2: the non-identity matrix `scaleMat`
round-trips from the fresh state, and setting the identity on the fresh
state (whose user matrix is the identity) returns the identity. -/
theorem calibration_set_get_matrix_witness :
    (evdev_calibration_get_matrix
      (evdev_calibration_set_matrix freshCalibState scaleMat)).1 = scaleMat ∧
    (evdev_calibration_get_matrix
      (evdev_calibration_set_matrix freshCalibState matrix_init_identity)).1 =
      matrix_to_farray6 freshCalibState.usermatrix := by
  constructor
  · exact (calibration_set_get_matrix freshCalibState scaleMat).1 (by decide)
  · exact (calibration_set_get_matrix freshCalibState matrix_init_identity).2 (by decide)

/-- C7: a REL_WHEEL event first flushes the pending event and then emits a
vertical scroll of −v·10; a REL_HWHEEL event flushes and emits a horizontal
scroll of v·10 when v is −1 or +1, and emits nothing more than the flush
output for any other v. -/
theorem wheel_flush_and_scroll (filt : MotionFilter) (device : EvdevDevice)
    (seat : LibinputSeat) (time : Nat) (v : Int) :
    (fallback_process filt device seat (InputEvent.mk EV_REL REL_WHEEL v) time =
      ((evdev_flush_pending_event filt device seat time).1,
       (evdev_flush_pending_event filt device seat time).2.1,
       (evdev_flush_pending_event filt device seat time).2.2 ++
         [Notification.pointer_axis time
           .LIBINPUT_POINTER_AXIS_SCROLL_VERTICAL
           (-1 * v * DEFAULT_AXIS_STEP_DISTANCE)])) ∧
    ((v = -1 ∨ v = 1) →
      fallback_process filt device seat (InputEvent.mk EV_REL REL_HWHEEL v) time =
        ((evdev_flush_pending_event filt device seat time).1,
         (evdev_flush_pending_event filt device seat time).2.1,
         (evdev_flush_pending_event filt device seat time).2.2 ++
           [Notification.pointer_axis time
             .LIBINPUT_POINTER_AXIS_SCROLL_HORIZONTAL
             (v * DEFAULT_AXIS_STEP_DISTANCE)])) ∧
    (v ≠ -1 → v ≠ 1 →
      fallback_process filt device seat (InputEvent.mk EV_REL REL_HWHEEL v) time =
        ((evdev_flush_pending_event filt device seat time).1,
         (evdev_flush_pending_event filt device seat time).2.1,
         (evdev_flush_pending_event filt device seat time).2.2)) := by
  refine ⟨?_, ?_, ?_⟩
  · simp [fallback_process, evdev_process_relative,
          EV_REL, REL_X, REL_Y, REL_WHEEL, REL_HWHEEL]
  · intro h
    simp [fallback_process, evdev_process_relative,
          EV_REL, REL_X, REL_Y, REL_WHEEL, REL_HWHEEL, h]
  · intro h1 h2
    simp [fallback_process, evdev_process_relative,
          EV_REL, REL_X, REL_Y, REL_WHEEL, REL_HWHEEL, h1, h2]

/-- Witness for C7: on a fresh device (nothing pending, so the flush emits
nothing) a wheel tick of +3 scrolls vertically by −30, a horizontal wheel
tick of +1 scrolls horizontally by +10, and a horizontal value of 5 emits
nothing. -/
theorem wheel_flush_and_scroll_witness :
    (fallback_process idFilter freshDevice emptySeat
      (InputEvent.mk EV_REL REL_WHEEL 3) 0).2.2 =
      [Notification.pointer_axis 0
        .LIBINPUT_POINTER_AXIS_SCROLL_VERTICAL (-30)] ∧
    (fallback_process idFilter freshDevice emptySeat
      (InputEvent.mk EV_REL REL_HWHEEL 1) 0).2.2 =
      [Notification.pointer_axis 0
        .LIBINPUT_POINTER_AXIS_SCROLL_HORIZONTAL 10] ∧
    (fallback_process idFilter freshDevice emptySeat
      (InputEvent.mk EV_REL REL_HWHEEL 5) 0).2.2 = [] := by
  refine ⟨?_, ?_, ?_⟩
  · have h := (wheel_flush_and_scroll idFilter freshDevice emptySeat 0 3).1
    rw [h]
    decide
  · have h := (wheel_flush_and_scroll idFilter freshDevice emptySeat 0 1).2.1
      (Or.inr rfl)
    rw [h]
    decide
  · have h := (wheel_flush_and_scroll idFilter freshDevice emptySeat 0 5).2.2
      (by decide) (by decide)
    rw [h]
    decide

/-- C5: flushing a pending touch-down (multi-touch or single-touch, on a
touch-capable device whose contact holds no seat slot yet) allocates the
lowest clear bit k of the 32-bit seat slot map, sets that bit, records k as
the contact's seat slot and emits the touch-down notification with seat
slot k; when every bit is already set the allocation yields −1, the contact
is recorded with no seat-slot assignment, the slot map is unchanged and no
notification is emitted. -/
theorem touch_down_allocates_lowest_clear_slot (filt : MotionFilter)
    (device : EvdevDevice) (seat : LibinputSeat) (time : Nat) (k : Nat)
    (hcap : device.seat_caps.touch = true)
    (hmap : seat.slot_map < 2 ^ 32) :
    ((k < 32 → Nat.testBit seat.slot_map k = false →
      (∀ j, j < k → Nat.testBit seat.slot_map j = true) →
      ((device.pending_event = .EVDEV_ABSOLUTE_MT_DOWN →
        (device.mt_slots device.mt_slot).seat_slot = -1 →
        ((evdev_flush_pending_event filt device seat time).1.mt_slots
            device.mt_slot).seat_slot = (k : Int) ∧
        (evdev_flush_pending_event filt device seat time).2.1.slot_map =
          seat.slot_map ||| (1 <<< k) ∧
        (evdev_flush_pending_event filt device seat time).2.2 =
          [Notification.touch_down time device.mt_slot (k : Int)
            (transform_absolute device (device.mt_slots device.mt_slot).x
              (device.mt_slots device.mt_slot).y).1
            (transform_absolute device (device.mt_slots device.mt_slot).x
              (device.mt_slots device.mt_slot).y).2]) ∧
       (device.pending_event = .EVDEV_ABSOLUTE_TOUCH_DOWN →
        device.abs_seat_slot = -1 →
        (evdev_flush_pending_event filt device seat time).1.abs_seat_slot =
          (k : Int) ∧
        (evdev_flush_pending_event filt device seat time).2.1.slot_map =
          seat.slot_map ||| (1 <<< k) ∧
        (evdev_flush_pending_event filt device seat time).2.2 =
          [Notification.touch_down time (-1) (k : Int)
            (transform_absolute device device.abs_x device.abs_y).1
            (transform_absolute device device.abs_x device.abs_y).2]))) ∧
     (seat.slot_map = 2 ^ 32 - 1 →
      ((device.pending_event = .EVDEV_ABSOLUTE_MT_DOWN →
        (device.mt_slots device.mt_slot).seat_slot = -1 →
        ((evdev_flush_pending_event filt device seat time).1.mt_slots
            device.mt_slot).seat_slot = -1 ∧
        (evdev_flush_pending_event filt device seat time).2.1 = seat ∧
        (evdev_flush_pending_event filt device seat time).2.2 = []) ∧
       (device.pending_event = .EVDEV_ABSOLUTE_TOUCH_DOWN →
        device.abs_seat_slot = -1 →
        (evdev_flush_pending_event filt device seat time).1.abs_seat_slot = -1 ∧
        (evdev_flush_pending_event filt device seat time).2.1 = seat ∧
        (evdev_flush_pending_event filt device seat time).2.2 = [])))) := by
  constructor
  · intro hk h1 h2
    have hffs := ffs_complement_least_clear seat.slot_map k hmap hk h1 h2
    have hval : (ffs ((2 ^ 32 - 1) ^^^ (seat.slot_map % 2 ^ 32)) : Int) - 1 =
        (k : Int) := by
      rw [hffs]
      omega
    constructor
    · intro hp hdup
      simp only [evdev_flush_pending_event, hp, hdup, hval]
      have hne : ¬((k : Int) = -1) := by omega
      simp [hcap, hne, transform_absolute]
    · intro hp hdup
      simp only [evdev_flush_pending_event, hp, hdup, hval]
      have hne : ¬((k : Int) = -1) := by omega
      simp [hcap, hne, transform_absolute]
  · intro hfull
    have hval : (ffs ((2 ^ 32 - 1) ^^^ (seat.slot_map % 2 ^ 32)) : Int) - 1 =
        (-1 : Int) := by
      rw [hfull, ffs_complement_full]
      rfl
    constructor
    · intro hp hdup
      simp only [evdev_flush_pending_event, hp, hdup, hval]
      simp [hcap]
    · intro hp hdup
      simp only [evdev_flush_pending_event, hp, hdup, hval]
      simp [hcap]

/-- Witness for C5: on a seat whose slots 0,1,2 are taken, flushing a
pending multi-touch down allocates seat slot 3, sets its bit (7 becomes 15)
and emits the touch-down; on a full seat, flushing a pending single-touch
down records no assignment, leaves the map full and emits nothing. -/
theorem touch_down_allocates_lowest_clear_slot_witness :
    ((evdev_flush_pending_event idFilter pendingMtDownDevice seat7 0).1.mt_slots
        0).seat_slot = 3 ∧
    (evdev_flush_pending_event idFilter pendingMtDownDevice seat7 0).2.1.slot_map =
      15 ∧
    (evdev_flush_pending_event idFilter pendingMtDownDevice seat7 0).2.2 =
      [Notification.touch_down 0 0 3 0 0] ∧
    (evdev_flush_pending_event idFilter pendingAbsDownDevice fullSeat 0).1.abs_seat_slot =
      -1 ∧
    (evdev_flush_pending_event idFilter pendingAbsDownDevice fullSeat 0).2.1 =
      fullSeat ∧
    (evdev_flush_pending_event idFilter pendingAbsDownDevice fullSeat 0).2.2 = [] := by
  have h :=
    ((touch_down_allocates_lowest_clear_slot idFilter pendingMtDownDevice seat7 0 3
      (by decide) (by decide)).1 (by decide) (by decide) (by decide)).1 rfl rfl
  have hfull :=
    ((touch_down_allocates_lowest_clear_slot idFilter pendingAbsDownDevice fullSeat 0 0
      (by decide) (by decide)).2 (by decide)).2 rfl rfl
  refine ⟨?_, ?_, ?_, hfull.1, hfull.2.1, hfull.2.2⟩
  · have := h.1
    simpa [pendingMtDownDevice, mtTouchDevice, freshDevice] using this
  · rw [h.2.1]
    decide
  · have := h.2.2
    simpa [pendingMtDownDevice, mtTouchDevice, freshDevice,
           transform_absolute] using this

/-- C1 amended: processing an EV_SYN event emits, after the flush output, a
touch-frame notification exactly when `evdev_need_touch_frame` held before
the flush, i.e. when the device is touch-capable and the pending event was
any absolute or touch kind; whenever the flush emitted at least one touch
notification a frame is emitted, but the converse fails (a frame can
accompany zero touch notifications, see the counterexample). -/
theorem syn_emits_frame_iff_touch_pending (filt : MotionFilter)
    (device : EvdevDevice) (seat : LibinputSeat) (time : Nat)
    (code : Nat) (value : Int) :
    (fallback_process filt device seat (InputEvent.mk EV_SYN code value) time).2.2 =
      (evdev_flush_pending_event filt device seat time).2.2 ++
        (if evdev_need_touch_frame device = true then
          [Notification.touch_frame time]
         else []) ∧
    ((∃ n ∈ (evdev_flush_pending_event filt device seat time).2.2,
        isTouchNotification n = true) →
      evdev_need_touch_frame device = true) := by
  constructor
  · simp [fallback_process, EV_SYN, EV_REL, EV_ABS, EV_KEY]
  · rintro ⟨n, hn, ht⟩
    by_cases hcap : device.seat_caps.touch = true
    · cases hp : device.pending_event
      · simp [evdev_flush_pending_event, hp] at hn
      · simp [evdev_need_touch_frame, hcap, hp]
      · simp [evdev_need_touch_frame, hcap, hp]
      · simp [evdev_need_touch_frame, hcap, hp]
      · simp [evdev_need_touch_frame, hcap, hp]
      · simp [evdev_need_touch_frame, hcap, hp]
      · simp [evdev_need_touch_frame, hcap, hp]
      · simp only [evdev_flush_pending_event, hp] at hn
        split at hn
        · simp at hn
        · simp at hn
          subst hn
          simp [isTouchNotification] at ht
    · have hcap' : device.seat_caps.touch = false := by
        simpa using hcap
      cases hp : device.pending_event
      · simp [evdev_flush_pending_event, hp] at hn
      · simp [evdev_flush_pending_event, hp, hcap'] at hn
      · by_cases hptr : device.seat_caps.pointer = true
        · simp [evdev_flush_pending_event, hp, hcap', hptr] at hn
          subst hn
          simp [isTouchNotification] at ht
        · simp [evdev_flush_pending_event, hp, hcap', hptr] at hn
      · simp [evdev_flush_pending_event, hp, hcap'] at hn
      · simp [evdev_flush_pending_event, hp, hcap'] at hn
      · simp [evdev_flush_pending_event, hp, hcap'] at hn
      · simp [evdev_flush_pending_event, hp, hcap'] at hn
      · simp only [evdev_flush_pending_event, hp] at hn
        split at hn
        · simp at hn
        · simp at hn
          subst hn
          simp [isTouchNotification] at ht

/-- C1 counterexample: on a touch-capable multi-touch device, an
ABS_MT_POSITION_X event on a slot holding no seat slot arms MT motion; the
following SYN_REPORT then emits a touch-frame notification although the
flush emitted zero touch notifications. -/
theorem syn_frame_without_touch_notification :
    (fallback_process_events idFilter mtTouchDevice emptySeat
      [(InputEvent.mk EV_ABS ABS_MT_POSITION_X 5, 0),
       (InputEvent.mk EV_SYN SYN_REPORT 0, 0)]).2.2 =
      [Notification.touch_frame 0] ∧
    ((fallback_process_events idFilter mtTouchDevice emptySeat
      [(InputEvent.mk EV_ABS ABS_MT_POSITION_X 5, 0),
       (InputEvent.mk EV_SYN SYN_REPORT 0, 0)]).2.2.all
      fun n => !isTouchNotification n) = true := by
  constructor
  · decide
  · decide

/-- Witness for the amended C1: with a multi-touch down pending, the
SYN_REPORT appends a touch-frame to the flush output, and the flush having
emitted a touch-down forces `evdev_need_touch_frame`. -/
theorem syn_emits_frame_iff_touch_pending_witness :
    (fallback_process idFilter pendingMtDownDevice seat7
      (InputEvent.mk EV_SYN SYN_REPORT 0) 0).2.2 =
      (evdev_flush_pending_event idFilter pendingMtDownDevice seat7 0).2.2 ++
        [Notification.touch_frame 0] ∧
    evdev_need_touch_frame pendingMtDownDevice = true := by
  constructor
  · have h := (syn_emits_frame_iff_touch_pending idFilter pendingMtDownDevice
      seat7 0 SYN_REPORT 0).1
    rw [h]
    decide
  · exact (syn_emits_frame_iff_touch_pending idFilter pendingMtDownDevice
      seat7 0 SYN_REPORT 0).2
      ⟨Notification.touch_down 0 0 3 0 0, by decide, by decide⟩

/-- C6 amended: an EV_KEY event with value 0 whose keycode classifies as
KEY or BUTTON and whose bit is clear in the key bitmap emits no key or
button notification of its own — the only output is whatever the flush of
the previously pending event produces — and leaves the press counters and
the bitmap unchanged. -/
theorem release_of_never_pressed_dropped (filt : MotionFilter)
    (device : EvdevDevice) (seat : LibinputSeat) (time : Nat) (e : InputEvent)
    (h1 : e.type = EV_KEY) (h2 : e.value = 0)
    (h3 : get_key_type e.code ≠ .EVDEV_KEY_TYPE_NONE)
    (h4 : device.key_mask e.code = false) :
    (fallback_process filt device seat e time).2.2 =
      (evdev_flush_pending_event filt device seat time).2.2 ∧
    (fallback_process filt device seat e time).1.key_count = device.key_count ∧
    (fallback_process filt device seat e time).1.key_mask = device.key_mask := by
  have hkeys := flush_preserves_key_state filt device seat time
  have hbt : ¬e.code = BTN_TOUCH := by
    intro hc
    apply h3
    rw [hc]
    rfl
  refine ⟨?_, ?_, ?_⟩ <;>
    simp [fallback_process, evdev_process_key, h1, h2, hbt, h3,
          EV_KEY, EV_REL, EV_ABS, EV_SYN, is_key_down,
          hkeys.1, hkeys.2, h4]

/-- C6 counterexample: with a relative motion pending, processing the
release of the never-pressed keycode 30 (KEY_A, class KEY, bitmap clear)
emits a notification — the pointer motion produced by the flush that the
key handler performs first — so "processing the event emits no
notification" fails as stated. -/
theorem release_of_never_pressed_emits_flush :
    get_key_type 30 = .EVDEV_KEY_TYPE_KEY ∧
    pendingRelDevice.key_mask 30 = false ∧
    (fallback_process idFilter pendingRelDevice emptySeat
      (InputEvent.mk EV_KEY 30 0) 7).2.2 =
      [Notification.pointer_motion 7 3 0] := by
  exact ⟨by decide, by decide, by decide⟩

/-- Witness for the amended C6: the same run, through the theorem — the
output equals the flush output alone and the key state is unchanged. -/
theorem release_of_never_pressed_dropped_witness :
    (fallback_process idFilter pendingRelDevice emptySeat
      (InputEvent.mk EV_KEY 30 0) 7).2.2 =
      (evdev_flush_pending_event idFilter pendingRelDevice emptySeat 7).2.2 ∧
    (fallback_process idFilter pendingRelDevice emptySeat
      (InputEvent.mk EV_KEY 30 0) 7).1.key_count = pendingRelDevice.key_count ∧
    (fallback_process idFilter pendingRelDevice emptySeat
      (InputEvent.mk EV_KEY 30 0) 7).1.key_mask = pendingRelDevice.key_mask := by
  exact release_of_never_pressed_dropped idFilter pendingRelDevice emptySeat 7
    (InputEvent.mk EV_KEY 30 0) rfl rfl (by decide) (by decide)

lemma KeyInv_of_key_state_eq (d d' : EvdevDevice)
    (hc : d'.key_count = d.key_count) (hm : d'.key_mask = d.key_mask)
    (h : KeyInv d) : KeyInv d' := by
  intro c
  rw [hc, hm]
  exact h c


lemma keyboard_notify_key_state (d : EvdevDevice) (t k : Nat) (st : Bool) :
    (evdev_keyboard_notify_key d t k st).1.key_mask = d.key_mask ∧
    ∀ c, (evdev_keyboard_notify_key d t k st).1.key_count c =
      if c = k then (if st then d.key_count k + 1 else d.key_count k - 1)
      else d.key_count c := by
  refine ⟨?_, fun c => ?_⟩ <;>
    simp only [evdev_keyboard_notify_key, update_key_down_count,
      apply_ite Prod.fst, ite_self]

lemma pointer_notify_button_state (d : EvdevDevice) (t k : Nat) (st : Bool) :
    (evdev_pointer_notify_button d t k st).1.key_mask = d.key_mask ∧
    ∀ c, (evdev_pointer_notify_button d t k st).1.key_count c =
      if c = k then (if st then d.key_count k + 1 else d.key_count k - 1)
      else d.key_count c := by
  refine ⟨?_, fun c => ?_⟩ <;>
    simp only [evdev_pointer_notify_button, update_key_down_count,
      apply_ite Prod.fst, ite_self]

lemma touch_button_preserves_key_state (filt : MotionFilter) (device : EvdevDevice)
    (seat : LibinputSeat) (time : Nat) (v : Int) :
    (evdev_process_touch_button filt device seat time v).1.key_count =
      device.key_count ∧
    (evdev_process_touch_button filt device seat time v).1.key_mask =
      device.key_mask := by
  have hkeys := flush_preserves_key_state filt device seat time
  unfold evdev_process_touch_button
  split <;> simp [hkeys.1, hkeys.2]

lemma process_relative_preserves_key_state (filt : MotionFilter)
    (device : EvdevDevice) (seat : LibinputSeat) (e : InputEvent) (time : Nat) :
    (evdev_process_relative filt device seat e time).1.key_count =
      device.key_count ∧
    (evdev_process_relative filt device seat e time).1.key_mask =
      device.key_mask := by
  have hkeys := flush_preserves_key_state filt device seat time
  unfold evdev_process_relative
  (repeat' split) <;> simp [hkeys.1, hkeys.2]

lemma process_touch_preserves_key_state (filt : MotionFilter)
    (device : EvdevDevice) (seat : LibinputSeat) (e : InputEvent) (time : Nat) :
    (evdev_process_touch filt device seat e time).1.key_count =
      device.key_count ∧
    (evdev_process_touch filt device seat e time).1.key_mask =
      device.key_mask := by
  have hkeys := flush_preserves_key_state filt device seat time
  unfold evdev_process_touch
  (repeat' split) <;> simp [hkeys.1, hkeys.2]

lemma process_absolute_preserves_key_state (filt : MotionFilter)
    (device : EvdevDevice) (seat : LibinputSeat) (e : InputEvent) (time : Nat) :
    (evdev_process_absolute filt device seat e time).1.key_count =
      device.key_count ∧
    (evdev_process_absolute filt device seat e time).1.key_mask =
      device.key_mask := by
  have ht := process_touch_preserves_key_state filt device seat e time
  unfold evdev_process_absolute evdev_process_absolute_motion
  (repeat' split) <;> simp [ht.1, ht.2]

lemma evdev_process_key_preserves_KeyInv (filt : MotionFilter)
    (device : EvdevDevice) (seat : LibinputSeat) (e : InputEvent) (time : Nat)
    (h : KeyInv device) :
    KeyInv (evdev_process_key filt device seat e time).1 := by
  have hkeys := flush_preserves_key_state filt device seat time
  have hinv1 : KeyInv (evdev_flush_pending_event filt device seat time).1 :=
    KeyInv_of_key_state_eq device _ hkeys.1 hkeys.2 h
  by_cases hv2 : e.value = 2
  · simpa [evdev_process_key, hv2] using h
  · by_cases hbt : e.code = BTN_TOUCH
    · by_cases hmt : device.is_mt = false
      · have ht := touch_button_preserves_key_state filt device seat time e.value
        have hres : KeyInv (evdev_process_touch_button filt device seat time
            e.value).1 :=
          KeyInv_of_key_state_eq device _ ht.1 ht.2 h
        simpa [evdev_process_key, hv2, hbt, hmt] using hres
      · simpa [evdev_process_key, hv2, hbt, hmt] using h
    · simp only [evdev_process_key, if_neg hv2, if_neg hbt]
      split
      · exact hinv1
      · rename_i hgate
        split
        · rename_i hty
          intro c
          by_cases hc : c = e.code
          · exact ⟨(hinv1 c).1, fun _ hne => absurd (hc ▸ hty) hne⟩
          · have hm : (set_key_down (evdev_flush_pending_event filt device seat
                time).1 e.code e.value).key_mask c =
                (evdev_flush_pending_event filt device seat time).1.key_mask c := by
              simp [set_key_down, hc]
            refine ⟨(hinv1 c).1, ?_⟩
            rw [hm]
            exact (hinv1 c).2
        · rename_i hty
          have hs := keyboard_notify_key_state
            (set_key_down (evdev_flush_pending_event filt device seat time).1
              e.code e.value) time e.code (e.value != 0)
          intro c
          rw [hs.1, hs.2 c]
          by_cases hc : c = e.code
          · rw [if_pos hc]
            have hsc : (set_key_down (evdev_flush_pending_event filt device seat
                time).1 e.code e.value).key_count =
                (evdev_flush_pending_event filt device seat time).1.key_count := rfl
            have hsm : (set_key_down (evdev_flush_pending_event filt device seat
                time).1 e.code e.value).key_mask c = (e.value != 0) := by
              simp [set_key_down, hc]
            rw [hsc, hsm]
            by_cases hv0 : e.value = 0
            · have hvb : (e.value != 0) = false := by simp [hv0]
              have hdown : (evdev_flush_pending_event filt device seat
                  time).1.key_mask e.code = true := by
                cases hmask : (evdev_flush_pending_event filt device seat
                    time).1.key_mask e.code
                · exact absurd ⟨hv0, by simp [hty], by
                    simpa [is_key_down] using hmask⟩ hgate
                · rfl
              have hcnt : 1 ≤ (evdev_flush_pending_event filt device seat
                  time).1.key_count e.code :=
                (hinv1 e.code).2 hdown (by simp [hty])
              rw [hvb]
              constructor
              · simp only [Bool.false_eq_true, if_false]
                omega
              · intro hmm
                simp at hmm
            · have hvb : (e.value != 0) = true := by simpa using hv0
              have h0 := (hinv1 e.code).1
              rw [hvb]
              constructor
              · simp only [if_true]
                omega
              · intro _ _
                simp only [if_true]
                omega
          · rw [if_neg hc]
            have hsc : (set_key_down (evdev_flush_pending_event filt device seat
                time).1 e.code e.value).key_count c =
                (evdev_flush_pending_event filt device seat time).1.key_count c := rfl
            have hsm : (set_key_down (evdev_flush_pending_event filt device seat
                time).1 e.code e.value).key_mask c =
                (evdev_flush_pending_event filt device seat time).1.key_mask c := by
              simp [set_key_down, hc]
            rw [hsc, hsm]
            exact hinv1 c
        · rename_i hty
          have hs := pointer_notify_button_state
            (set_key_down (evdev_flush_pending_event filt device seat time).1
              e.code e.value) time e.code (e.value != 0)
          intro c
          rw [hs.1, hs.2 c]
          by_cases hc : c = e.code
          · rw [if_pos hc]
            have hsc : (set_key_down (evdev_flush_pending_event filt device seat
                time).1 e.code e.value).key_count =
                (evdev_flush_pending_event filt device seat time).1.key_count := rfl
            have hsm : (set_key_down (evdev_flush_pending_event filt device seat
                time).1 e.code e.value).key_mask c = (e.value != 0) := by
              simp [set_key_down, hc]
            rw [hsc, hsm]
            by_cases hv0 : e.value = 0
            · have hvb : (e.value != 0) = false := by simp [hv0]
              have hdown : (evdev_flush_pending_event filt device seat
                  time).1.key_mask e.code = true := by
                cases hmask : (evdev_flush_pending_event filt device seat
                    time).1.key_mask e.code
                · exact absurd ⟨hv0, by simp [hty], by
                    simpa [is_key_down] using hmask⟩ hgate
                · rfl
              have hcnt : 1 ≤ (evdev_flush_pending_event filt device seat
                  time).1.key_count e.code :=
                (hinv1 e.code).2 hdown (by simp [hty])
              rw [hvb]
              constructor
              · simp only [Bool.false_eq_true, if_false]
                omega
              · intro hmm
                simp at hmm
            · have hvb : (e.value != 0) = true := by simpa using hv0
              have h0 := (hinv1 e.code).1
              rw [hvb]
              constructor
              · simp only [if_true]
                omega
              · intro _ _
                simp only [if_true]
                omega
          · rw [if_neg hc]
            have hsc : (set_key_down (evdev_flush_pending_event filt device seat
                time).1 e.code e.value).key_count c =
                (evdev_flush_pending_event filt device seat time).1.key_count c := rfl
            have hsm : (set_key_down (evdev_flush_pending_event filt device seat
                time).1 e.code e.value).key_mask c =
                (evdev_flush_pending_event filt device seat time).1.key_mask c := by
              simp [set_key_down, hc]
            rw [hsc, hsm]
            exact hinv1 c

lemma fallback_process_preserves_KeyInv (filt : MotionFilter)
    (device : EvdevDevice) (seat : LibinputSeat) (e : InputEvent) (time : Nat)
    (h : KeyInv device) :
    KeyInv (fallback_process filt device seat e time).1 := by
  have hflush := flush_preserves_key_state filt device seat time
  have hrel := process_relative_preserves_key_state filt device seat e time
  have habs := process_absolute_preserves_key_state filt device seat e time
  unfold fallback_process
  split
  · exact KeyInv_of_key_state_eq device _ hrel.1 hrel.2 h
  · split
    · exact KeyInv_of_key_state_eq device _ habs.1 habs.2 h
    · split
      · exact evdev_process_key_preserves_KeyInv filt device seat e time h
      · split
        · exact KeyInv_of_key_state_eq device _ hflush.1 hflush.2 h
        · exact h

lemma fallback_process_events_preserves_KeyInv (filt : MotionFilter) :
    ∀ (evs : List (InputEvent × Nat)) (device : EvdevDevice)
      (seat : LibinputSeat), KeyInv device →
      KeyInv (fallback_process_events filt device seat evs).1 := by
  intro evs
  induction evs with
  | nil =>
    intro device seat h
    exact h
  | cons p rest ih =>
    intro device seat h
    exact ih _ _ (fallback_process_preserves_KeyInv filt device seat p.1 p.2 h)

/-- C3: starting from any device satisfying the key-bookkeeping invariant
(in particular a freshly created one), no event sequence ever drives a
press count negative; and the keyboard/button notifiers update the count by
±1 and emit a notification exactly on the 0-to-1 (pressed) and 1-to-0
(released) transitions — every other count transition emits nothing. -/
theorem key_count_nonneg_and_edge_notifications (filt : MotionFilter) :
    (∀ (device : EvdevDevice) (seat : LibinputSeat)
       (evs : List (InputEvent × Nat)) (c : Nat), KeyInv device →
       0 ≤ (fallback_process_events filt device seat evs).1.key_count c) ∧
    (∀ (device : EvdevDevice) (time key : Nat) (st : Bool),
       (evdev_keyboard_notify_key device time key st).1.key_count key =
         (if st then device.key_count key + 1 else device.key_count key - 1) ∧
       ((evdev_keyboard_notify_key device time key st).2 =
           [Notification.keyboard_key time key st] ↔
         ((st = true ∧ device.key_count key = 0) ∨
          (st = false ∧ device.key_count key = 1))) ∧
       ((evdev_keyboard_notify_key device time key st).2 = [] ↔
         ¬((st = true ∧ device.key_count key = 0) ∨
           (st = false ∧ device.key_count key = 1)))) ∧
    (∀ (device : EvdevDevice) (time button : Nat) (st : Bool),
       (evdev_pointer_notify_button device time button st).1.key_count button =
         (if st then device.key_count button + 1
          else device.key_count button - 1) ∧
       ((evdev_pointer_notify_button device time button st).2 =
           [Notification.pointer_button time button st] ↔
         ((st = true ∧ device.key_count button = 0) ∨
          (st = false ∧ device.key_count button = 1))) ∧
       ((evdev_pointer_notify_button device time button st).2 = [] ↔
         ¬((st = true ∧ device.key_count button = 0) ∨
           (st = false ∧ device.key_count button = 1)))) := by
  refine ⟨?_, ?_, ?_⟩
  · intro device seat evs c h
    exact ((fallback_process_events_preserves_KeyInv filt evs device seat h) c).1
  · intro device time key st
    have hs := keyboard_notify_key_state device time key st
    refine ⟨by rw [hs.2 key]; simp, ?_, ?_⟩ <;>
      (cases st <;>
        simp [evdev_keyboard_notify_key, update_key_down_count] <;>
        (repeat' split) <;>
        simp_all <;>
        omega)
  · intro device time button st
    have hs := pointer_notify_button_state device time button st
    refine ⟨by rw [hs.2 button]; simp, ?_, ?_⟩ <;>
      (cases st <;>
        simp [evdev_pointer_notify_button, update_key_down_count] <;>
        (repeat' split) <;>
        simp_all <;>
        omega)

/-- Witness for C3: the press/release pair on keycode 30 from the fresh
device keeps the count non-negative, and a press from count 0 emits the
PRESSED notification. -/
theorem key_count_nonneg_and_edge_notifications_witness :
    0 ≤ (fallback_process_events idFilter freshDevice emptySeat
      [(InputEvent.mk EV_KEY 30 1, 0),
       (InputEvent.mk EV_KEY 30 0, 1)]).1.key_count 30 ∧
    ((evdev_keyboard_notify_key freshDevice 0 30 true).2 =
        [Notification.keyboard_key 0 30 true] ↔
      ((true = true ∧ freshDevice.key_count 30 = 0) ∨
       (true = false ∧ freshDevice.key_count 30 = 1))) := by
  constructor
  · exact (key_count_nonneg_and_edge_notifications idFilter).1 freshDevice
      emptySeat _ 30
      (fun c => ⟨by simp [freshDevice], fun hm _ => by simp [freshDevice] at hm⟩)
  · exact ((key_count_nonneg_and_edge_notifications idFilter).2.1 freshDevice
      0 30 true).2.1

lemma scan_step_eq (kc : Nat → Bool) (a b : Bool) (x : Nat) :
    scan_step kc (a, b) x =
      (a || (kc x && decide (get_key_type x = .EVDEV_KEY_TYPE_KEY)),
       b || (kc x && decide (get_key_type x = .EVDEV_KEY_TYPE_BUTTON))) := by
  by_cases hkc : kc x = true
  · cases hty : get_key_type x <;> simp [scan_step, hkc, hty]
  · simp only [Bool.not_eq_true] at hkc
    simp [scan_step, hkc]

lemma foldl_scan_step (kc : Nat → Bool) :
    ∀ (l : List Nat) (a b : Bool),
      l.foldl (scan_step kc) (a, b) =
        (a || l.any (fun i => kc i &&
           decide (get_key_type i = .EVDEV_KEY_TYPE_KEY)),
         b || l.any (fun i => kc i &&
           decide (get_key_type i = .EVDEV_KEY_TYPE_BUTTON))) := by
  intro l
  induction l with
  | nil =>
    intro a b
    simp
  | cons x xs ih =>
    intro a b
    rw [List.foldl_cons, scan_step_eq, ih, List.any_cons, List.any_cons]
    simp [Bool.or_assoc]

lemma scan_key_codes_spec (kc : Nat → Bool) :
    ((scan_key_codes kc).1 = true ↔
      ∃ i, i < KEY_MAX ∧ kc i = true ∧
        get_key_type i = .EVDEV_KEY_TYPE_KEY) ∧
    ((scan_key_codes kc).2 = true ↔
      ∃ i, i < KEY_MAX ∧ kc i = true ∧
        get_key_type i = .EVDEV_KEY_TYPE_BUTTON) := by
  unfold scan_key_codes
  rw [foldl_scan_step]
  constructor <;>
    simp [List.any_eq_true, List.mem_range]

/-- C8: on the fallback configuration path (mt setup allocations succeed,
the touchpad diversion does not apply, the acceleration filter allocates),
the granted seat capabilities satisfy exactly: POINTER iff (has-abs or
has-rel) and a BUTTON-class code is advertised; KEYBOARD iff a KEY-class
code or an LED is advertised; TOUCH iff touch is advertised (MT axes or
BTN_TOUCH) and no button is; and whenever configuration grants no
capability, device creation returns the unhandled-device sentinel, which is
distinct from the error sentinel. -/
theorem configure_capability_grants (ev : LibevdevModel) (env : CreateEnv)
    (hmt1 : ev.mtdev_open_ok = true) (hmt2 : ev.mtdev_valid_slots = true)
    (hmt3 : ev.slots_alloc_ok = true)
    (htp : ¬(ev.has_EV_KEY = true ∧ ¬ev.prop_direct = true ∧
      ev.btn_tool_finger = true ∧ ¬ev.btn_tool_pen = true ∧
      ((ev.has_EV_ABS = true ∧ (ev.abs_x_info = true ∨ ev.abs_y_info = true)) ∨
       (ev.has_EV_ABS = true ∧ ev.has_mt_position_x = true ∧
        ev.has_mt_position_y = true))))
    (haccel : ev.accel_ok = true) :
    (∃ caps, evdev_configure_device ev = .fallback caps ∧
      (caps.pointer = true ↔
        (((ev.has_EV_ABS = true ∧ (ev.abs_x_info = true ∨ ev.abs_y_info = true)) ∨
          (ev.has_rel_x = true ∨ ev.has_rel_y = true)) ∧
         (ev.has_EV_KEY = true ∧ ∃ i, i < KEY_MAX ∧ ev.key_codes i = true ∧
           get_key_type i = .EVDEV_KEY_TYPE_BUTTON))) ∧
      (caps.keyboard = true ↔
        ((ev.has_EV_KEY = true ∧ ∃ i, i < KEY_MAX ∧ ev.key_codes i = true ∧
           get_key_type i = .EVDEV_KEY_TYPE_KEY) ∨
         ev.has_EV_LED = true)) ∧
      (caps.touch = true ↔
        (((ev.has_EV_ABS = true ∧ ev.has_mt_position_x = true ∧
           ev.has_mt_position_y = true) ∨
          (ev.has_EV_KEY = true ∧ ev.key_codes BTN_TOUCH = true)) ∧
         ¬(ev.has_EV_KEY = true ∧ ∃ i, i < KEY_MAX ∧ ev.key_codes i = true ∧
           get_key_type i = .EVDEV_KEY_TYPE_BUTTON)))) ∧
    (∀ caps, evdev_configure_device ev = .fallback caps →
      caps = SeatCaps.mk false false false →
      env.open_ok = true → env.zalloc_ok = true → env.libevdev_new_ok = true →
      evdev_device_create env ev = .unhandled_device) := by
  have hscan := scan_key_codes_spec ev.key_codes
  constructor
  · simp only [evdev_configure_device]
    have hA : ¬((ev.has_EV_ABS = true ∧ ev.has_mt_position_x = true ∧
        ev.has_mt_position_y = true) ∧
        ((¬ev.has_mt_slot_code = true ∧
          (¬ev.mtdev_open_ok = true ∨ ¬ev.mtdev_valid_slots = true)) ∨
         ¬ev.slots_alloc_ok = true)) := by
      simp [hmt1, hmt2, hmt3]
    have hC : ¬((((ev.has_EV_ABS = true ∧
        (ev.abs_x_info = true ∨ ev.abs_y_info = true)) ∨
        (ev.has_rel_x = true ∨ ev.has_rel_y = true)) ∧
        (ev.has_EV_KEY = true ∧ (scan_key_codes ev.key_codes).2 = true)) ∧
        ¬ev.accel_ok = true) := fun hacc => hacc.2 haccel
    rw [if_neg hA, if_neg htp, if_neg hC]
    refine Exists.intro _ ⟨rfl, ?_, ?_, ?_⟩
    · rw [show ∀ a b c, (SeatCaps.mk a b c).pointer = a from fun _ _ _ => rfl,
        decide_eq_true_iff]
      rw [hscan.2]
    · rw [show ∀ a b c, (SeatCaps.mk a b c).keyboard = b from fun _ _ _ => rfl,
        decide_eq_true_iff]
      rw [hscan.1]
    · rw [show ∀ a b c, (SeatCaps.mk a b c).touch = c from fun _ _ _ => rfl,
        decide_eq_true_iff]
      rw [hscan.2]
  · intro caps hconf hnone ho hz hl
    simp [evdev_device_create, ho, hz, hl, hconf, hnone]

/-- Witness for C8: a probe advertising nothing grants no capability, and
creation returns the unhandled-device sentinel (not the error sentinel). -/
theorem configure_capability_grants_witness :
    evdev_device_create okEnv emptyProbe = CreateResult.unhandled_device ∧
    CreateResult.unhandled_device ≠ CreateResult.failure := by
  constructor
  · exact (configure_capability_grants emptyProbe okEnv rfl rfl rfl
      (by decide) rfl).2 (SeatCaps.mk false false false) (by decide)
      rfl rfl rfl rfl
  · decide

/-- C9: the fallback capability detection never grants POINTER and TOUCH
together: POINTER requires a button-class code and TOUCH requires its
absence. -/
theorem pointer_touch_mutually_exclusive (ev : LibevdevModel) (caps : SeatCaps)
    (h : evdev_configure_device ev = .fallback caps) :
    caps.pointer = false ∨ caps.touch = false := by
  simp only [evdev_configure_device] at h
  split at h
  · exact absurd h (by simp)
  · split at h
    · split at h <;> exact absurd h (by simp)
    · split at h
      · exact absurd h (by simp)
      · rename_i hacc
        injection h with hcaps
        subst hcaps
        by_cases hb : ev.has_EV_KEY = true ∧ (scan_key_codes ev.key_codes).2 = true
        · right
          simpa using fun _ => hb
        · left
          simpa using fun _ hk => by
            cases hsc : (scan_key_codes ev.key_codes).2
            · rfl
            · exact absurd ⟨hk, hsc⟩ hb

/-- Witness for C9: on the empty probe the fallback configuration yields no
capabilities, so pointer and touch are trivially not both set. -/
theorem pointer_touch_mutually_exclusive_witness :
    (SeatCaps.mk false false false).pointer = false ∨
    (SeatCaps.mk false false false).touch = false :=
  pointer_touch_mutually_exclusive emptyProbe (SeatCaps.mk false false false)
    (by decide)
